import Mathlib

/-
Verification development for the ConvoX real-time messaging backend.

This file gives a shallow embedding of the server core: the message and
group data model (server/src/models/message.ts, group.ts), the socket
handlers (server/src/services/socketService.ts) and the HTTP controllers
for messages and groups (messageController, groupController).  Handlers
are modelled as pure functions from a server state and an inbound event
to a new server state plus the ordered list of emitted socket events.
Theorems about the specified behaviour follow the definitions.
-/

namespace ConvoX

/-- User, socket, message and group identifiers; times are in milliseconds. -/
abbrev UserId := Nat

abbrev SocketId := Nat

abbrev MsgId := Nat

abbrev GroupId := Nat

abbrev Time := Nat

/-- Content kind of a message (messageType enum of the Message schema). -/
inductive MessageType where
  | text
  | image
  | video
  | system
deriving DecidableEq, Repr

/-- A persisted message row (message.ts schema).  Display-only media payload
fields (imageUrl, videoUrl) and removedMemberId are omitted: no verified
operation reads them. -/
structure Message where
  id : MsgId
  sender : UserId
  receiver : Option UserId
  group : Option GroupId
  text : String
  messageType : MessageType
  isRead : Bool
  isEdited : Bool
  editedAt : Option Time
  deletedForSender : Bool
  deletedForReceiver : Bool
  deletedForEveryone : Bool
  deletedForUsers : List UserId
  deletedAt : Option Time
  createdAt : Time
deriving DecidableEq, Repr

/-- A user record: only the fields the verified handlers read. -/
structure User where
  id : UserId
  blockedUsers : List UserId
deriving DecidableEq, Repr

/-- A group member entry ({user, role, joinedAt, unreadCount, lastReadAt});
role and joinedAt are omitted, no verified operation reads them. -/
structure GroupMember where
  user : UserId
  unreadCount : Nat
  lastReadAt : Time
deriving DecidableEq, Repr

/-- The denormalized latestMessage cache stored on a group. -/
structure LatestMessage where
  messageId : MsgId
  text : String
  messageType : MessageType
  sender : UserId
  createdAt : Time
deriving DecidableEq, Repr

/-- A group document (group.ts schema); name/description/icon and the
role/joinedAt member fields are display-only and omitted. -/
structure Group where
  id : GroupId
  members : List GroupMember
  removedMembers : List UserId
  leftMembers : List UserId
  isActive : Bool
  latestMessage : Option LatestMessage
deriving DecidableEq, Repr

/-- An entry of the in-process presence registry (the onlineUsers Map,
keyed by userId, storing {userId, socketId, username}). -/
structure OnlineEntry where
  userId : UserId
  socketId : SocketId
deriving DecidableEq, Repr

/-- A live socket together with the set of rooms it has joined
(socket.rooms).  A socket id absent from the list is not connected. -/
structure SocketRec where
  socketId : SocketId
  rooms : List String
deriving DecidableEq, Repr

/-- Outbound socket events, in emission order.  Room-targeted emissions
(io.to(roomName)) are recorded with the room key. -/
inductive Event where
  | receiveMessage (toSocket : SocketId) (m : Message)
  | messageSent (toSocket : SocketId) (m : Message)
  | messagesRead (toSocket : SocketId) (senderId : UserId)
  | newMessage (toSocket : SocketId) (m : Message)
  | messageEdited (toSocket : SocketId) (m : Message)
  | messageEditedRoom (room : String) (m : Message)
  | messageDeletedForMe (toSocket : SocketId) (m : Message)
  | messageDeletedForEveryone (toSocket : SocketId) (m : Message)
  | messageDeletedForEveryoneRoom (room : String) (m : Message)
  | userOnline (toSocket : SocketId) (userId : UserId)
  | userOffline (toSocket : SocketId) (userId : UserId)
  | errorEvent (toSocket : SocketId) (msg : String)
deriving DecidableEq, Repr

/-- The whole server state: users with their block lists, the message and
group stores, the presence registry, the live sockets with their rooms, a
fresh-id counter for message creation and the current clock. -/
structure ServerState where
  users : List User
  messages : List Message
  groups : List Group
  onlineUsers : List OnlineEntry
  socketRooms : List SocketRec
  nextId : MsgId
  now : Time
deriving DecidableEq, Repr

/-- Result of running a socket handler: the new state and the emitted
events in order. -/
structure HandlerResult where
  state : ServerState
  events : List Event
deriving DecidableEq, Repr

/-- User.findById. -/
def findUser (users : List User) (uid : UserId) : Option User :=
  users.find? (fun u => u.id == uid)

/-- Lookup of a user in the presence registry
(Array.from(onlineUsers.values()).find(u =&gt; u.userId === uid)). -/
def findOnline (entries : List OnlineEntry) (uid : UserId) : Option OnlineEntry :=
  entries.find? (fun e => e.userId == uid)

/-- io.sockets.sockets.get: resolve a socket id to its room set; none means
the socket is not connected. -/
def findRooms (socks : List SocketRec) (sid : SocketId) : Option (List String) :=
  (socks.find? (fun s => s.socketId == sid)).map (fun s => s.rooms)

/-- Message.findById. -/
def findMessage (msgs : List Message) (mid : MsgId) : Option Message :=
  msgs.find? (fun m => m.id == mid)

/-- Message.findOne with ownership filter ({_id: mid, sender: uid}). -/
def findOwnMessage (msgs : List Message) (mid : MsgId) (uid : UserId) : Option Message :=
  msgs.find? (fun m => m.id == mid && m.sender == uid)

/-- Rewrite of the message row with the given id (message.save after an
in-place mutation). -/
def updateMessage (msgs : List Message) (mid : MsgId) (m1 : Message) : List Message :=
  msgs.map (fun m => if m.id == mid then m1 else m)

/-- Direct-chat room key: chat_ prefixed to the sorted pair of the two
participant ids ([a, b].sort().join). -/
def directRoom (a b : UserId) : String :=
  "chat_" ++ toString (min a b) ++ "_" ++ toString (max a b)

/-- Group room key (group_ prefixed to the group id). -/
def groupRoom (gid : GroupId) : String :=
  "group_" ++ toString gid

/-- The 12-hour edit/delete window in milliseconds. -/
def twelveHoursMs : Nat := 12 * 60 * 60 * 1000

/-- The fixed tombstone text written by delete-for-everyone. -/
def tombstoneText : String := "This message was deleted"

/-- JS String.prototype.trim: strip leading and trailing whitespace
(modelled over the character list so that it evaluates). -/
def jsTrim (s : String) : String :=
  String.mk ((s.data.dropWhile Char.isWhitespace).reverse.dropWhile Char.isWhitespace).reverse

/-- Payload of the sendMessage socket event (data.text is optional and
defaulted with data.text or empty-string in the handler). -/
structure SendDirectData where
  receiverId : UserId
  text : Option String
  messageType : MessageType
deriving DecidableEq, Repr

/-- Guard of handleSendMessage: the receiver exists and has blocked the
sender (receiver.blockedUsers includes senderObjectId). -/
def receiverHasBlockedSender (st : ServerState) (senderId rid : UserId) : Bool :=
  ((findUser st.users rid).map (fun u => u.blockedUsers.contains senderId)).getD false

/-- Guard of handleSendMessage: the sender exists and has blocked the
receiver (sender.blockedUsers includes receiverObjectId). -/
def senderHasBlockedReceiver (st : ServerState) (senderId rid : UserId) : Bool :=
  ((findUser st.users senderId).map (fun u => u.blockedUsers.contains rid)).getD false

/-- The unpersisted echo object built on the blocked paths of
handleSendMessage (fresh ObjectId, isRead false, createdAt now; never
saved to the store). -/
def blockedEcho (st : ServerState) (senderId : UserId) (d : SendDirectData) : Message :=
  { id := st.nextId
    sender := senderId
    receiver := some d.receiverId
    group := none
    text := d.text.getD ""
    messageType := d.messageType
    isRead := false
    isEdited := false
    editedAt := none
    deletedForSender := false
    deletedForReceiver := false
    deletedForEveryone := false
    deletedForUsers := []
    deletedAt := none
    createdAt := st.now }

/-- Socket handler for the sendMessage event (socketService.ts,
handleSendMessage).  If either party has blocked the other, nothing is
persisted and only a fabricated messageSent echo goes back to the sender.
Otherwise the message is created (marked read when the receiver is
currently viewing the direct-chat room), pushed to the receiver when
online, echoed to the sender, and a messagesRead notification follows
when the passive read applied. -/
def handleSendMessage (st : ServerState) (senderId : UserId) (senderSock : SocketId)
    (d : SendDirectData) : HandlerResult :=
  if receiverHasBlockedSender st senderId d.receiverId then
    { state := st, events := [Event.messageSent senderSock (blockedEcho st senderId d)] }
  else if senderHasBlockedReceiver st senderId d.receiverId then
    { state := st, events := [Event.messageSent senderSock (blockedEcho st senderId d)] }
  else
    let receiverUser := findOnline st.onlineUsers d.receiverId
    let isRead :=
      match receiverUser with
      | some e =>
        match findRooms st.socketRooms e.socketId with
        | some rooms => rooms.contains (directRoom senderId d.receiverId)
        | none => false
      | none => false
    let msg : Message :=
      { id := st.nextId
        sender := senderId
        receiver := some d.receiverId
        group := none
        text := if d.messageType == MessageType.text then d.text.getD "" else ""
        messageType := d.messageType
        isRead := isRead
        isEdited := false
        editedAt := none
        deletedForSender := false
        deletedForReceiver := false
        deletedForEveryone := false
        deletedForUsers := []
        deletedAt := none
        createdAt := st.now }
    let st1 := { st with messages := st.messages ++ [msg], nextId := st.nextId + 1 }
    let receiverSocket := findOnline st.onlineUsers d.receiverId
    let ev1 :=
      match receiverSocket with
      | some e => [Event.receiveMessage e.socketId msg]
      | none => []
    let ev3 :=
      if isRead && receiverUser.isSome then [Event.messagesRead senderSock d.receiverId]
      else []
    { state := st1, events := ev1 ++ [Event.messageSent senderSock msg] ++ ev3 }

/-- Payload of the sendGroupMessage socket event. -/
structure SendGroupData where
  groupId : GroupId
  text : Option String
  messageType : MessageType
deriving DecidableEq, Repr

/-- Group.findOne({_id, members.user: uid, isActive: true}). -/
def findGroupForMember (groups : List Group) (gid : GroupId) (uid : UserId) : Option Group :=
  groups.find? (fun g => g.id == gid && g.members.any (fun m => m.user == uid) && g.isActive)

/-- Group.findOne({_id, removedMembers.user: uid, isActive: true}). -/
def findGroupForRemoved (groups : List Group) (gid : GroupId) (uid : UserId) : Option Group :=
  groups.find? (fun g => g.id == gid && g.removedMembers.contains uid && g.isActive)

/-- Group.updateOne setting the latestMessage cache after a group send. -/
def setGroupLatest (groups : List Group) (gid : GroupId) (lm : LatestMessage) : List Group :=
  groups.map (fun g => if g.id == gid then { g with latestMessage := some lm } else g)

/-- Directional block test: user a exists and its block list contains b. -/
def userBlocks (users : List User) (a b : UserId) : Bool :=
  ((findUser users a).map (fun u => u.blockedUsers.contains b)).getD false

/-- The message row created by a group send: sender, group set, isRead
false, created at the current clock. -/
def groupMsgOf (st : ServerState) (senderId : UserId) (d : SendGroupData) : Message :=
  { id := st.nextId
    sender := senderId
    receiver := none
    group := some d.groupId
    text := d.text.getD ""
    messageType := d.messageType
    isRead := false
    isEdited := false
    editedAt := none
    deletedForSender := false
    deletedForReceiver := false
    deletedForEveryone := false
    deletedForUsers := []
    deletedAt := none
    createdAt := st.now }

/-- Socket handler for the sendGroupMessage event (socketService.ts,
handleSendGroupMessage).  After the membership check the handler computes
the lists of members blocked by the sender and of members blocking the
sender, but the fan-out loop below iterates all active members and does
not consult them; the new message is pushed to every online member
(the sender included) and the messageSent confirmation is emitted last. -/
def handleSendGroupMessage (st : ServerState) (senderId : UserId) (senderSock : SocketId)
    (d : SendGroupData) : HandlerResult :=
  match findGroupForMember st.groups d.groupId senderId with
  | none =>
    if (findGroupForRemoved st.groups d.groupId senderId).isSome then
      { state := st, events := [Event.errorEvent senderSock "You were removed from this group"] }
    else
      { state := st, events := [Event.errorEvent senderSock "Group not found or access denied"] }
  | some group =>
    match findUser st.users senderId with
    | none => { state := st, events := [Event.errorEvent senderSock "Sender not found"] }
    | some sender =>
      let _blockedMembers := (group.members.filter (fun m =>
        m.user != senderId && sender.blockedUsers.contains m.user)).map (fun m => m.user)
      let _blockingMembers := (group.members.filter (fun m =>
        m.user != senderId && userBlocks st.users m.user senderId)).map (fun m => m.user)
      let msg : Message := groupMsgOf st senderId d
      let lm : LatestMessage :=
        { messageId := msg.id
          text := msg.text
          messageType := msg.messageType
          sender := msg.sender
          createdAt := msg.createdAt }
      let st1 :=
        { st with
          messages := st.messages ++ [msg]
          groups := setGroupLatest st.groups d.groupId lm
          nextId := st.nextId + 1 }
      let fanout := group.members.filterMap (fun m =>
        (findOnline st.onlineUsers m.user).map (fun e => Event.newMessage e.socketId msg))
      { state := st1, events := fanout ++ [Event.messageSent senderSock msg] }

/-- Payload of the editMessage socket event. -/
structure EditData where
  messageId : MsgId
  text : String
deriving DecidableEq, Repr

/-- Socket handler for the editMessage event (socketService.ts,
handleEditMessage): ownership lookup, 12-hour window, text-kind check,
then in-place update of text/isEdited/editedAt and fan-out of
messageEdited to the sender, the direct receiver when online, and the
group room for group messages. -/
def handleEditMessage (st : ServerState) (userId : UserId) (sock : SocketId)
    (d : EditData) : HandlerResult :=
  match findOwnMessage st.messages d.messageId userId with
  | none =>
    { state := st, events := [Event.errorEvent sock "Message not found or no permission to edit it"] }
  | some m =>
    if st.now - m.createdAt > twelveHoursMs then
      { state := st, events := [Event.errorEvent sock "Cannot edit message older than 12 hours"] }
    else if m.messageType != MessageType.text then
      { state := st, events := [Event.errorEvent sock "Only text messages can be edited"] }
    else
      let m1 := { m with text := jsTrim d.text, isEdited := true, editedAt := some st.now }
      let st1 := { st with messages := updateMessage st.messages m.id m1 }
      let evR :=
        match m.receiver with
        | some r =>
          match findOnline st.onlineUsers r with
          | some e => [Event.messageEdited e.socketId m1]
          | none => []
        | none => []
      let evG :=
        match m.group with
        | some g => [Event.messageEditedRoom (groupRoom g) m1]
        | none => []
      { state := st1, events := [Event.messageEdited sock m1] ++ evR ++ evG }

/-- HTTP controller editMessage (messageController): identical ownership,
window and kind checks, but the request is rejected up front when the
replacement text is empty after trimming. -/
def editMessageHttp (st : ServerState) (userId : UserId) (messageId : MsgId)
    (text : String) : ServerState × Except (Nat × String) Message :=
  if (jsTrim text).data.isEmpty then
    (st, Except.error (400, "Text cannot be empty"))
  else
    match findOwnMessage st.messages messageId userId with
    | none => (st, Except.error (404, "Message not found or no permission to edit it"))
    | some m =>
      if st.now - m.createdAt > twelveHoursMs then
        (st, Except.error (400, "Cannot edit message older than 12 hours"))
      else if m.messageType != MessageType.text then
        (st, Except.error (400, "Only text messages can be edited"))
      else
        let m1 := { m with text := jsTrim text, isEdited := true, editedAt := some st.now }
        ({ st with messages := updateMessage st.messages m.id m1 }, Except.ok m1)

/-- Socket handler for the deleteMessageForMe event (socketService.ts,
handleDeleteMessageForMe with its group/normal split).  For direct
messages the caller must be sender or receiver and exactly the matching
per-side flag is set; for group messages the caller must be an active
member, the sender flips deletedForSender and any other member is
appended (idempotently) to deletedForUsers.  Only the caller is notified. -/
def handleDeleteMessageForMe (st : ServerState) (userId : UserId) (sock : SocketId)
    (messageId : MsgId) : HandlerResult :=
  match findMessage st.messages messageId with
  | none => { state := st, events := [Event.errorEvent sock "Message not found"] }
  | some m =>
    match m.group with
    | some gid =>
      if (findGroupForMember st.groups gid userId).isSome then
        let m1 :=
          if m.sender == userId then
            { m with deletedForSender := true, deletedAt := some st.now }
          else
            { m with
              deletedForUsers :=
                if m.deletedForUsers.contains userId then m.deletedForUsers
                else m.deletedForUsers ++ [userId]
              deletedAt := some st.now }
        { state := { st with messages := updateMessage st.messages m.id m1 }
          events := [Event.messageDeletedForMe sock m1] }
      else
        { state := st, events := [Event.errorEvent sock "No permission to delete this message"] }
    | none =>
      let isSender := m.sender == userId
      let isReceiver := m.receiver == some userId
      if !isSender && !isReceiver then
        { state := st, events := [Event.errorEvent sock "No permission to delete this message"] }
      else
        let m1 :=
          if isSender then { m with deletedForSender := true, deletedAt := some st.now }
          else { m with deletedForReceiver := true, deletedAt := some st.now }
        { state := { st with messages := updateMessage st.messages m.id m1 }
          events := [Event.messageDeletedForMe sock m1] }

/-- Update of the latestMessage cache performed by the group branch of
delete-for-everyone when the cache points at the tombstoned message. -/
def tombstoneGroupLatest (groups : List Group) (gid : GroupId) (m : Message) : List Group :=
  groups.map (fun g =>
    if g.id == gid then
      match g.latestMessage with
      | some lm =>
        if lm.messageId == m.id then
          let lm1 : LatestMessage :=
            { messageId := m.id
              text := tombstoneText
              messageType := m.messageType
              sender := m.sender
              createdAt := m.createdAt }
          { g with latestMessage := some lm1 }
        else g
      | none => g
    else g)

/-- Socket handler for the deleteMessageForEveryone event
(socketService.ts, handleDeleteMessageForEveryone dispatching to
handleGroupMessageDeleteForEveryone or handleNormalMessageDeleteForEveryone):
ownership lookup and 12-hour window, then the text is rewritten to the
tombstone with deletedForEveryone, deletedAt and isEdited set, in both the
group and the direct branch. -/
def handleDeleteMessageForEveryone (st : ServerState) (userId : UserId) (sock : SocketId)
    (messageId : MsgId) : HandlerResult :=
  match findOwnMessage st.messages messageId userId with
  | none =>
    { state := st, events := [Event.errorEvent sock "Message not found or no permission to delete it"] }
  | some m =>
    if st.now - m.createdAt > twelveHoursMs then
      { state := st, events := [Event.errorEvent sock "Cannot delete message older than 12 hours"] }
    else
      let m1 := { m with
        text := tombstoneText
        deletedForEveryone := true
        deletedAt := some st.now
        isEdited := true }
      match m.group with
      | some gid =>
        { state :=
            { st with
              messages := updateMessage st.messages m.id m1
              groups := tombstoneGroupLatest st.groups gid m }
          events := [Event.messageDeletedForEveryoneRoom (groupRoom gid) m1] }
      | none =>
        let evS :=
          match findOnline st.onlineUsers m.sender with
          | some e => [Event.messageDeletedForEveryone e.socketId m1]
          | none => []
        let evR :=
          match m.receiver with
          | some r =>
            match findOnline st.onlineUsers r with
            | some e => [Event.messageDeletedForEveryone e.socketId m1]
            | none => []
          | none => []
        { state := { st with messages := updateMessage st.messages m.id m1 }
          events := evS ++ evR }

/-- HTTP controller deleteMessageForEveryone (messageController): same
ownership lookup and 12-hour window, but it only sets deletedForEveryone
and deletedAt; the text is not rewritten and isEdited is not touched. -/
def deleteMessageForEveryoneHttp (st : ServerState) (userId : UserId)
    (messageId : MsgId) : ServerState × Except (Nat × String) MsgId :=
  match findOwnMessage st.messages messageId userId with
  | none => (st, Except.error (404, "Message not found or no permission to delete it"))
  | some m =>
    if st.now - m.createdAt > twelveHoursMs then
      (st, Except.error (400, "Cannot delete message older than 12 hours"))
    else
      let m1 := { m with deletedForEveryone := true, deletedAt := some st.now }
      ({ st with messages := updateMessage st.messages m.id m1 }, Except.ok messageId)

/-- Message.updateMany({sender, receiver: me, isRead: false}, {isRead: true}),
shared by the socket handler handleMarkMessagesAsRead and the HTTP
controller markMessagesAsRead. -/
def markMessagesRead (st : ServerState) (receiverId senderId : UserId) : ServerState :=
  { st with
    messages := st.messages.map (fun m =>
      if m.sender == senderId && m.receiver == some receiverId && m.isRead == false then
        { m with isRead := true }
      else m) }

/-- Replacement of the first group member entry matching the user
(the positional members.$ update of markGroupMessagesAsRead). -/
def updateFirstMember (members : List GroupMember) (uid : UserId)
    (f : GroupMember → GroupMember) : List GroupMember :=
  match members with
  | [] => []
  | gm :: rest =>
    if gm.user == uid then f gm :: rest
    else gm :: updateFirstMember rest uid f

/-- Group.updateOne({_id, members.user}, {members.$.lastReadAt: now,
members.$.unreadCount: 0}), shared by the socket handler
handleMarkGroupMessagesAsRead and the HTTP controller
markGroupMessagesAsRead.  The message store is untouched. -/
def markGroupMessagesRead (st : ServerState) (uid : UserId) (gid : GroupId) : ServerState :=
  { st with
    groups := st.groups.map (fun g =>
      if g.id == gid && g.members.any (fun m => m.user == uid) then
        let ms := updateFirstMember g.members uid
          (fun gm => { gm with lastReadAt := st.now, unreadCount := 0 })
        { g with members := ms }
      else g) }

/-- HTTP controller sendMessage (messageController): payload validation,
bidirectional block check answered with 403 (nothing persisted), then the
message is created with isRead false. -/
def sendMessageHttp (st : ServerState) (senderId : UserId)
    (d : SendDirectData) : ServerState × Except (Nat × String) Message :=
  if d.messageType == MessageType.text && (jsTrim (d.text.getD "")).data.isEmpty then
    (st, Except.error (400, "Text message cannot be empty"))
  else if receiverHasBlockedSender st senderId d.receiverId then
    (st, Except.error (403, "You are blocked by this user"))
  else if senderHasBlockedReceiver st senderId d.receiverId then
    (st, Except.error (403, "You have blocked this user"))
  else
    let msg : Message :=
      { id := st.nextId
        sender := senderId
        receiver := some d.receiverId
        group := none
        text := if d.messageType == MessageType.text then jsTrim (d.text.getD "") else ""
        messageType := d.messageType
        isRead := false
        isEdited := false
        editedAt := none
        deletedForSender := false
        deletedForReceiver := false
        deletedForEveryone := false
        deletedForUsers := []
        deletedAt := none
        createdAt := st.now }
    ({ st with messages := st.messages ++ [msg], nextId := st.nextId + 1 }, Except.ok msg)

/-- Visibility filter of the getConversations query (messageController):
a direct message appears in the viewer's conversation list when the viewer
is a party to it, it is not flagged deletedForSender while the viewer is
the sender, and not flagged deletedForReceiver while the viewer is the
receiver.  Tombstoned-for-everyone messages stay visible. -/
def visibleInConversations (m : Message) (uid : UserId) : Bool :=
  m.receiver.isSome &&
  (m.sender == uid || m.receiver == some uid) &&
  (m.sender != uid || m.deletedForSender != true) &&
  (m.receiver != some uid || m.deletedForReceiver != true)

/-- Predicate of the unread-count query run by getUserGroups
(groupController) for a current member: group matches, createdAt strictly
after lastReadAt, sender is someone else, the member is not listed in
deletedForUsers, and deletedForSender only matters when the member is the
sender. -/
def groupUnreadPred (gid : GroupId) (uid : UserId) (lastReadAt : Time) (m : Message) : Bool :=
  m.group == some gid &&
  decide (lastReadAt < m.createdAt) &&
  m.sender != uid &&
  !(m.deletedForUsers.contains uid) &&
  (m.sender != uid || m.deletedForSender != true)

/-- Unread count computed by getUserGroups for a current member:
Message.countDocuments over the query above. -/
def groupUnreadCount (msgs : List Message) (gid : GroupId) (uid : UserId)
    (lastReadAt : Time) : Nat :=
  (msgs.filter (groupUnreadPred gid uid lastReadAt)).length

/-- Modelled from the spec wording of the group unread count: the number
of messages in the group created strictly after the member's lastReadAt,
excluding messages the member sent, and excluding messages individually
deleted for the member (listed in deletedForUsers, or flagged
deletedForSender when the member is the sender); messages tombstoned for
everyone carry no exclusion and are counted. -/
def specGroupUnreadCount (msgs : List Message) (gid : GroupId) (uid : UserId)
    (lastReadAt : Time) : Nat :=
  (msgs.filter (fun m =>
    m.group == some gid &&
    decide (lastReadAt < m.createdAt) &&
    !(m.sender == uid) &&
    !(m.deletedForUsers.contains uid || (m.sender == uid && m.deletedForSender)))).length

/-- Registry write performed at connection time (onlineUsers.set keyed by
userId): a reconnect replaces the prior entry for the same user. -/
def registerOnline (entries : List OnlineEntry) (uid : UserId) (sock : SocketId) : List OnlineEntry :=
  if entries.any (fun e => e.userId == uid) then
    entries.map (fun e => if e.userId == uid then { userId := uid, socketId := sock } else e)
  else
    entries ++ [{ userId := uid, socketId := sock }]

/-- Presence notification loop (notifyUserOnlineStatus): every entry of
the registry other than the transitioning user, whose user record exists,
with no block in either direction and a still-connected socket, receives
userOnline or userOffline. -/
def notifyStatus (st : ServerState) (uid : UserId) (isOnline : Bool) : List Event :=
  match findUser st.users uid with
  | none => []
  | some user =>
    st.onlineUsers.filterMap (fun e =>
      if e.userId == uid then none
      else
        match findUser st.users e.userId with
        | none => none
        | some other =>
          if other.blockedUsers.contains uid || user.blockedUsers.contains e.userId then none
          else if (findRooms st.socketRooms e.socketId).isSome then
            some (if isOnline then Event.userOnline e.socketId uid else Event.userOffline e.socketId uid)
          else none)

/-- Disconnect handler registered by handleSocketConnection: the registry
entry keyed by the socket's userId is deleted without comparing socket
ids, the per-user room bookkeeping for the socket is dropped, and the
offline notification loop runs over the registry as left after the
deletion. -/
def handleDisconnect (st : ServerState) (uid : UserId) (sock : SocketId) : HandlerResult :=
  let st1 :=
    { st with
      onlineUsers := st.onlineUsers.filter (fun e => e.userId != uid)
      socketRooms := st.socketRooms.filter (fun s => s.socketId != sock) }
  { state := st1, events := notifyStatus st1 uid false }

/-- Per-validate hook of the Message schema: a message must carry a
receiver or a group, and never both. -/
def validateMessage (m : Message) : Except String Unit :=
  if !m.receiver.isSome && !m.group.isSome then
    Except.error "Either receiver or group must be specified"
  else if m.receiver.isSome && m.group.isSome then
    Except.error "Cannot specify both receiver and group"
  else
    Except.ok ()

/-- Exactly one of the receiver and group fields is set. -/
def exactlyOneTarget (m : Message) : Bool :=
  m.receiver.isSome != m.group.isSome

/-- Every message of a store satisfies the exactly-one-target invariant. -/
def storeOk (msgs : List Message) : Bool :=
  msgs.all exactlyOneTarget

/-! Helper lemmas about the store primitives, shared by the claim
theorems below. -/

theorem length_updateMessage (l : List Message) (mid : MsgId) (m1 : Message) :
    (updateMessage l mid m1).length = l.length := by
  simp [updateMessage]

theorem mem_updateMessage_of_ne {l : List Message} {m : Message} (mid : MsgId) (m1 : Message)
    (hm : m ∈ l) (hne : m.id ≠ mid) : m ∈ updateMessage l mid m1 := by
  unfold updateMessage
  refine List.mem_map.mpr ⟨m, hm, ?_⟩
  simp [hne]

theorem mem_updateMessage_self {l : List Message} {m : Message} {mid : MsgId} (m1 : Message)
    (hm : m ∈ l) (heq : m.id = mid) : m1 ∈ updateMessage l mid m1 := by
  unfold updateMessage
  refine List.mem_map.mpr ⟨m, hm, ?_⟩
  simp [heq]

theorem findMessage_updateMessage (l : List Message) (mid : MsgId) (m1 : Message)
    (hsome : (findMessage l mid).isSome) (hid : m1.id = mid) :
    findMessage (updateMessage l mid m1) mid = some m1 := by
  induction l with
  | nil => simp [findMessage] at hsome
  | cons x xs ih =>
    by_cases hx : x.id = mid
    · unfold findMessage updateMessage
      rw [List.map_cons, List.find?_cons_of_pos]
      · simp [hx]
      · simp [hx, hid]
    · have hhead : (if (x.id == mid) = true then m1 else x) = x := by simp [hx]
      have hsome' : (findMessage xs mid).isSome := by
        unfold findMessage at hsome
        rw [List.find?_cons_of_neg _ (by simp [hx])] at hsome
        exact hsome
      unfold findMessage updateMessage
      rw [List.map_cons, hhead, List.find?_cons_of_neg _ (by simp [hx])]
      exact ih hsome'

theorem storeOk_mem {l : List Message} {m : Message} (h : storeOk l = true) (hm : m ∈ l) :
    exactlyOneTarget m = true := by
  exact List.all_eq_true.mp h m hm

theorem storeOk_append {l : List Message} {m : Message} (h : storeOk l = true)
    (hm : exactlyOneTarget m = true) : storeOk (l ++ [m]) = true := by
  unfold storeOk at h ⊢
  rw [List.all_append]
  simp [h, hm]

theorem storeOk_update {l : List Message} {m1 : Message} (mid : MsgId)
    (h : storeOk l = true) (hm1 : exactlyOneTarget m1 = true) :
    storeOk (updateMessage l mid m1) = true := by
  unfold storeOk updateMessage
  rw [List.all_eq_true]
  intro x hx
  rcases List.mem_map.mp hx with ⟨y, hy, hxy⟩
  by_cases hid : y.id = mid
  · have hx1 : x = m1 := by rw [← hxy]; simp [hid]
    rw [hx1]; exact hm1
  · have hx1 : x = y := by rw [← hxy]; simp [hid]
    rw [hx1]; exact storeOk_mem h hy

/-- C3.  For every group and every current member, the unread count
computed by getUserGroups equals the spec count: messages in the group
created strictly after the member's lastReadAt, excluding the member's
own messages and those individually deleted for the member, with
tombstoned-for-everyone messages still counted. -/
theorem c3_group_unread_count_matches_spec
    (msgs : List Message) (gid : GroupId) (uid : UserId) (lastReadAt : Time) :
    groupUnreadCount msgs gid uid lastReadAt = specGroupUnreadCount msgs gid uid lastReadAt := by
  unfold groupUnreadCount specGroupUnreadCount
  congr 1
  apply List.filter_congr
  intro m _
  unfold groupUnreadPred
  by_cases hs : m.sender = uid
  · have h1 : (m.sender == uid) = true := by simp [hs]
    simp [bne, h1]
  · have h1 : (m.sender == uid) = false := by simp [hs]
    simp [bne, h1, Bool.and_assoc]

theorem validateMessage_ok_iff (m : Message) :
    validateMessage m = Except.ok () ↔ exactlyOneTarget m = true := by
  unfold validateMessage exactlyOneTarget
  cases hr : m.receiver <;> cases hg : m.group <;> simp

theorem storeOk_handleSendMessage (st : ServerState) (senderId : UserId) (sock : SocketId)
    (d : SendDirectData) (h : storeOk st.messages = true) :
    storeOk (handleSendMessage st senderId sock d).state.messages = true := by
  unfold handleSendMessage
  split
  · exact h
  · split
    · exact h
    · exact storeOk_append h rfl

theorem storeOk_handleSendGroupMessage (st : ServerState) (senderId : UserId) (sock : SocketId)
    (d : SendGroupData) (h : storeOk st.messages = true) :
    storeOk (handleSendGroupMessage st senderId sock d).state.messages = true := by
  unfold handleSendGroupMessage
  split
  · split
    · exact h
    · exact h
  · split
    · exact h
    · exact storeOk_append h rfl

theorem storeOk_sendMessageHttp (st : ServerState) (senderId : UserId)
    (d : SendDirectData) (h : storeOk st.messages = true) :
    storeOk (sendMessageHttp st senderId d).1.messages = true := by
  unfold sendMessageHttp
  split
  · exact h
  · split
    · exact h
    · split
      · exact h
      · exact storeOk_append h rfl

theorem storeOk_handleEditMessage (st : ServerState) (userId : UserId) (sock : SocketId)
    (d : EditData) (h : storeOk st.messages = true) :
    storeOk (handleEditMessage st userId sock d).state.messages = true := by
  unfold handleEditMessage
  split
  · exact h
  · next m heq =>
    have hone : exactlyOneTarget m = true :=
      storeOk_mem h (List.mem_of_find?_eq_some heq)
    split
    · exact h
    · split
      · exact h
      · exact storeOk_update m.id h hone

theorem storeOk_editMessageHttp (st : ServerState) (userId : UserId) (mid : MsgId)
    (text : String) (h : storeOk st.messages = true) :
    storeOk (editMessageHttp st userId mid text).1.messages = true := by
  unfold editMessageHttp
  split
  · exact h
  · split
    · exact h
    · next m heq =>
      have hone : exactlyOneTarget m = true :=
        storeOk_mem h (List.mem_of_find?_eq_some heq)
      split
      · exact h
      · split
        · exact h
        · exact storeOk_update m.id h hone

theorem storeOk_handleDeleteMessageForMe (st : ServerState) (userId : UserId) (sock : SocketId)
    (mid : MsgId) (h : storeOk st.messages = true) :
    storeOk (handleDeleteMessageForMe st userId sock mid).state.messages = true := by
  unfold handleDeleteMessageForMe
  split
  · exact h
  · next m heq =>
    have hmem : m ∈ st.messages := List.mem_of_find?_eq_some heq
    have hone : exactlyOneTarget m = true := storeOk_mem h hmem
    split
    · split
      · by_cases hsend : (m.sender == userId) = true
        · simp only [hsend, if_true, reduceIte]
          exact storeOk_update m.id h hone
        · simp only [hsend]
          simp only [Bool.false_eq_true, if_false, reduceIte]
          exact storeOk_update m.id h hone
      · exact h
    · by_cases hperm : (!(m.sender == userId) && !(m.receiver == some userId)) = true
      · simp only [hperm, if_true, reduceIte]
        exact h
      · simp only [hperm]
        simp only [Bool.false_eq_true, if_false, reduceIte]
        by_cases hsend : (m.sender == userId) = true
        · simp only [hsend, if_true, reduceIte]
          exact storeOk_update m.id h hone
        · simp only [hsend]
          simp only [Bool.false_eq_true, if_false, reduceIte]
          exact storeOk_update m.id h hone

theorem storeOk_handleDeleteMessageForEveryone (st : ServerState) (userId : UserId)
    (sock : SocketId) (mid : MsgId) (h : storeOk st.messages = true) :
    storeOk (handleDeleteMessageForEveryone st userId sock mid).state.messages = true := by
  unfold handleDeleteMessageForEveryone
  split
  · exact h
  · next m heq =>
    have hone : exactlyOneTarget m = true :=
      storeOk_mem h (List.mem_of_find?_eq_some heq)
    split
    · exact h
    · split
      · exact storeOk_update m.id h hone
      · exact storeOk_update m.id h hone

theorem storeOk_deleteMessageForEveryoneHttp (st : ServerState) (userId : UserId)
    (mid : MsgId) (h : storeOk st.messages = true) :
    storeOk (deleteMessageForEveryoneHttp st userId mid).1.messages = true := by
  unfold deleteMessageForEveryoneHttp
  split
  · exact h
  · next m heq =>
    have hone : exactlyOneTarget m = true :=
      storeOk_mem h (List.mem_of_find?_eq_some heq)
    split
    · exact h
    · exact storeOk_update m.id h hone

theorem storeOk_markMessagesRead (st : ServerState) (receiverId senderId : UserId)
    (h : storeOk st.messages = true) :
    storeOk (markMessagesRead st receiverId senderId).messages = true := by
  unfold markMessagesRead storeOk
  rw [List.all_eq_true]
  intro x hx
  rcases List.mem_map.mp hx with ⟨y, hy, hxy⟩
  have hone : exactlyOneTarget y = true := storeOk_mem h hy
  by_cases hc : (y.sender == senderId && y.receiver == some receiverId && y.isRead == false) = true
  · have hx1 : x = { y with isRead := true } := by rw [← hxy, if_pos hc]
    rw [hx1]; exact hone
  · have hx1 : x = y := by rw [← hxy, if_neg hc]
    rw [hx1]; exact hone

theorem storeOk_markGroupMessagesRead (st : ServerState) (uid : UserId) (gid : GroupId)
    (h : storeOk st.messages = true) :
    storeOk (markGroupMessagesRead st uid gid).messages = true := h

/-- C9.  Every message accepted by the schema validation satisfies the
exactly-one-of-receiver-and-group invariant, and every handler of the
embedding — the three create paths and all later mutations (edit,
delete-for-me, delete-for-everyone on both interfaces, mark-read) —
preserves it across the whole store. -/
theorem c9_exactly_one_target_invariant :
    (∀ m : Message, validateMessage m = Except.ok () ↔ exactlyOneTarget m = true) ∧
    (∀ st senderId sock d, storeOk st.messages = true →
      storeOk (handleSendMessage st senderId sock d).state.messages = true) ∧
    (∀ st senderId sock d, storeOk st.messages = true →
      storeOk (handleSendGroupMessage st senderId sock d).state.messages = true) ∧
    (∀ st senderId d, storeOk st.messages = true →
      storeOk (sendMessageHttp st senderId d).1.messages = true) ∧
    (∀ st userId sock d, storeOk st.messages = true →
      storeOk (handleEditMessage st userId sock d).state.messages = true) ∧
    (∀ st userId mid text, storeOk st.messages = true →
      storeOk (editMessageHttp st userId mid text).1.messages = true) ∧
    (∀ st userId sock mid, storeOk st.messages = true →
      storeOk (handleDeleteMessageForMe st userId sock mid).state.messages = true) ∧
    (∀ st userId sock mid, storeOk st.messages = true →
      storeOk (handleDeleteMessageForEveryone st userId sock mid).state.messages = true) ∧
    (∀ st userId mid, storeOk st.messages = true →
      storeOk (deleteMessageForEveryoneHttp st userId mid).1.messages = true) ∧
    (∀ st receiverId senderId, storeOk st.messages = true →
      storeOk (markMessagesRead st receiverId senderId).messages = true) ∧
    (∀ st uid gid, storeOk st.messages = true →
      storeOk (markGroupMessagesRead st uid gid).messages = true) := by
  refine ⟨validateMessage_ok_iff, ?_, ?_, ?_, ?_, ?_, ?_, ?_, ?_, ?_, ?_⟩
  · exact storeOk_handleSendMessage
  · exact storeOk_handleSendGroupMessage
  · exact storeOk_sendMessageHttp
  · exact storeOk_handleEditMessage
  · exact storeOk_editMessageHttp
  · exact storeOk_handleDeleteMessageForMe
  · exact storeOk_handleDeleteMessageForEveryone
  · exact storeOk_deleteMessageForEveryoneHttp
  · exact storeOk_markMessagesRead
  · exact storeOk_markGroupMessagesRead

/-- C1 (amended).  For every direct send over the socket interface where
the receiver has blocked the sender or the sender has blocked the
receiver, nothing is persisted — the server state is unchanged — the
receiver's live connection receives no receiveMessage push, and the
sender still receives a messageSent echo carrying that sender and
receiver with isRead false (a fabricated, unpersisted message object). -/
theorem c1_blocked_direct_send_unpersisted_echo
    (st : ServerState) (senderId : UserId) (senderSock : SocketId) (d : SendDirectData)
    (hb : receiverHasBlockedSender st senderId d.receiverId = true ∨
          senderHasBlockedReceiver st senderId d.receiverId = true) :
    (handleSendMessage st senderId senderSock d).state = st ∧
    (∀ s m, Event.receiveMessage s m ∉ (handleSendMessage st senderId senderSock d).events) ∧
    (∃ m, (handleSendMessage st senderId senderSock d).events = [Event.messageSent senderSock m] ∧
      m.sender = senderId ∧ m.receiver = some d.receiverId ∧ m.isRead = false) := by
  have hred : (handleSendMessage st senderId senderSock d).events =
      [Event.messageSent senderSock (blockedEcho st senderId d)] ∧
      (handleSendMessage st senderId senderSock d).state = st := by
    unfold handleSendMessage
    by_cases h1 : receiverHasBlockedSender st senderId d.receiverId = true
    · simp [h1]
    · cases hb with
      | inl h => exact absurd h h1
      | inr h2 => simp [h1, h2]
  refine ⟨hred.2, ?_, ?_⟩
  · intro s m hmem
    rw [hred.1] at hmem
    simp at hmem
  · exact ⟨blockedEcho st senderId d, hred.1, rfl, rfl, rfl⟩

/-- Concrete scenario for C1: user 2 has blocked user 1, both online. -/
def stC1 : ServerState :=
  { users := [⟨1, []⟩, ⟨2, [1]⟩]
    messages := []
    groups := []
    onlineUsers := [⟨1, 11⟩, ⟨2, 21⟩]
    socketRooms := [⟨11, []⟩, ⟨21, []⟩]
    nextId := 100
    now := 1000 }

/-- Send payload for the C1 scenario. -/
def dC1 : SendDirectData := ⟨2, some "hi", MessageType.text⟩

/-- C1 counterexample.  User 1 sends to user 2 who has blocked user 1:
contrary to the claim, no message is persisted in the store (the store
stays empty, in particular no row with sender 1 and receiver 2 exists);
only the messageSent echo reaches the sender and no receiveMessage is
pushed. -/
theorem c1_counterexample :
    (handleSendMessage stC1 1 11 dC1).state.messages = [] ∧
    (handleSendMessage stC1 1 11 dC1).events = [Event.messageSent 11 (blockedEcho stC1 1 dC1)] := by
  decide

/-- C1 witness: the amended theorem applied to the concrete blocked
scenario. -/
theorem c1_blocked_direct_send_unpersisted_echo_witness :
    (receiverHasBlockedSender stC1 1 2 = true ∨ senderHasBlockedReceiver stC1 1 2 = true) ∧
    ((handleSendMessage stC1 1 11 dC1).state = stC1 ∧
     (∀ s m, Event.receiveMessage s m ∉ (handleSendMessage stC1 1 11 dC1).events) ∧
     (∃ m, (handleSendMessage stC1 1 11 dC1).events = [Event.messageSent 11 m] ∧
       m.sender = 1 ∧ m.receiver = some 2 ∧ m.isRead = false)) :=
  ⟨Or.inl (by decide), c1_blocked_direct_send_unpersisted_echo stC1 1 11 dC1 (Or.inl (by decide))⟩

/-- Scenario state for the C9 witness: empty message store, two users. -/
def stC9 : ServerState :=
  { users := [⟨1, []⟩, ⟨2, []⟩]
    messages := []
    groups := []
    onlineUsers := []
    socketRooms := []
    nextId := 0
    now := 0 }

/-- C9 witness: the preservation conjunct for the socket direct-send
create path, applied to a concrete empty store. -/
theorem c9_exactly_one_target_invariant_witness :
    storeOk stC9.messages = true ∧
    storeOk (handleSendMessage stC9 1 11 ⟨2, some "hi", MessageType.text⟩).state.messages = true :=
  ⟨by decide,
    c9_exactly_one_target_invariant.2.1 stC9 1 11 ⟨2, some "hi", MessageType.text⟩ (by decide)⟩

/-- C2 (amended).  For every DeleteForEveryone performed by the original
sender within 12 hours of createdAt: on the socket interface the message
text is rewritten to the fixed tombstone string and
deletedForEveryone=true, deletedAt=now and isEdited=true are set, for
direct and group messages alike; on the HTTP interface only
deletedForEveryone=true and deletedAt=now are set, while the text and
isEdited are left unchanged.  Other rows are untouched on both paths. -/
theorem c2_delete_for_everyone_tombstone_by_interface
    (st : ServerState) (userId : UserId) (sock : SocketId) (mid : MsgId) (m : Message)
    (hfind : findOwnMessage st.messages mid userId = some m)
    (hage : st.now - m.createdAt ≤ twelveHoursMs) :
    (({ m with
        text := tombstoneText
        deletedForEveryone := true
        deletedAt := some st.now
        isEdited := true } : Message) ∈
          (handleDeleteMessageForEveryone st userId sock mid).state.messages ∧
      (handleDeleteMessageForEveryone st userId sock mid).state.messages.length =
        st.messages.length ∧
      (∀ x ∈ st.messages, x.id ≠ m.id →
        x ∈ (handleDeleteMessageForEveryone st userId sock mid).state.messages)) ∧
    (({ m with
        deletedForEveryone := true
        deletedAt := some st.now } : Message) ∈
          (deleteMessageForEveryoneHttp st userId mid).1.messages ∧
      (deleteMessageForEveryoneHttp st userId mid).1.messages.length = st.messages.length ∧
      (∀ x ∈ st.messages, x.id ≠ m.id →
        x ∈ (deleteMessageForEveryoneHttp st userId mid).1.messages)) := by
  have hmem : m ∈ st.messages := List.mem_of_find?_eq_some hfind
  have hnage : ¬ st.now - m.createdAt > twelveHoursMs := Nat.not_lt.mpr hage
  constructor
  · unfold handleDeleteMessageForEveryone
    rw [hfind]
    simp only [if_neg hnage]
    cases hgr : m.group with
    | none =>
      refine ⟨mem_updateMessage_self _ hmem rfl, length_updateMessage _ _ _, ?_⟩
      intro x hx hne
      exact mem_updateMessage_of_ne _ _ hx hne
    | some gid =>
      refine ⟨mem_updateMessage_self _ hmem rfl, length_updateMessage _ _ _, ?_⟩
      intro x hx hne
      exact mem_updateMessage_of_ne _ _ hx hne
  · unfold deleteMessageForEveryoneHttp
    rw [hfind]
    simp only [if_neg hnage]
    refine ⟨mem_updateMessage_self _ hmem rfl, length_updateMessage _ _ _, ?_⟩
    intro x hx hne
    exact mem_updateMessage_of_ne _ _ hx hne

/-- The stored message of the C2 scenario, 1000 ms old at delete time. -/
def mC2 : Message :=
  { id := 100
    sender := 1
    receiver := some 2
    group := none
    text := "hello"
    messageType := MessageType.text
    isRead := false
    isEdited := false
    editedAt := none
    deletedForSender := false
    deletedForReceiver := false
    deletedForEveryone := false
    deletedForUsers := []
    deletedAt := none
    createdAt := 1000 }

/-- Concrete scenario for C2: a direct text message well inside the
12-hour window. -/
def stC2 : ServerState :=
  { users := [⟨1, []⟩, ⟨2, []⟩]
    messages := [mC2]
    groups := []
    onlineUsers := []
    socketRooms := []
    nextId := 101
    now := 2000 }

/-- C2 counterexample.  The sender deletes the message for everyone over
the HTTP interface, within the window: the operation succeeds and sets
deletedForEveryone, but the text stays the original (not the tombstone
string) and isEdited stays false, contrary to the claim that every
interface rewrites the tombstone and sets isEdited. -/
theorem c2_counterexample :
    ((deleteMessageForEveryoneHttp stC2 1 100).1.messages.map
      (fun m => (m.text, m.isEdited, m.deletedForEveryone))) = [("hello", false, true)] ∧
    "hello" ≠ tombstoneText := by
  decide

/-- C2 witness: the amended theorem applied to the concrete scenario. -/
theorem c2_delete_for_everyone_tombstone_by_interface_witness :
    (findOwnMessage stC2.messages 100 1 = some mC2 ∧
     stC2.now - mC2.createdAt ≤ twelveHoursMs) ∧
    (({ mC2 with
        text := tombstoneText
        deletedForEveryone := true
        deletedAt := some stC2.now
        isEdited := true } : Message) ∈
          (handleDeleteMessageForEveryone stC2 1 11 100).state.messages ∧
      (handleDeleteMessageForEveryone stC2 1 11 100).state.messages.length =
        stC2.messages.length ∧
      (∀ x ∈ stC2.messages, x.id ≠ mC2.id →
        x ∈ (handleDeleteMessageForEveryone stC2 1 11 100).state.messages)) ∧
    (({ mC2 with
        deletedForEveryone := true
        deletedAt := some stC2.now } : Message) ∈
          (deleteMessageForEveryoneHttp stC2 1 100).1.messages ∧
      (deleteMessageForEveryoneHttp stC2 1 100).1.messages.length = stC2.messages.length ∧
      (∀ x ∈ stC2.messages, x.id ≠ mC2.id →
        x ∈ (deleteMessageForEveryoneHttp stC2 1 100).1.messages)) :=
  ⟨⟨by decide, by decide⟩,
    (c2_delete_for_everyone_tombstone_by_interface stC2 1 11 100 mC2 (by decide) (by decide)).1,
    (c2_delete_for_everyone_tombstone_by_interface stC2 1 11 100 mC2 (by decide) (by decide)).2⟩

/-- C4 (amended).  For every fanned-out mutation the sender's own
confirmation is emitted after the recipients' events, not before: a
direct send with the receiver online emits receiveMessage to the
receiver first and messageSent to the sender second; a group send emits
all newMessage fan-out events (the sender's own connection included)
before the final messageSent confirmation. -/
theorem c4_recipients_before_sender_confirmation :
    (∀ st senderId senderSock d e,
      receiverHasBlockedSender st senderId d.receiverId = false →
      senderHasBlockedReceiver st senderId d.receiverId = false →
      findOnline st.onlineUsers d.receiverId = some e →
      ∃ m rest, (handleSendMessage st senderId senderSock d).events =
        Event.receiveMessage e.socketId m :: Event.messageSent senderSock m :: rest) ∧
    (∀ st senderId senderSock d g,
      findGroupForMember st.groups d.groupId senderId = some g →
      (findUser st.users senderId).isSome = true →
      ∃ m, (handleSendGroupMessage st senderId senderSock d).events.getLast? =
          some (Event.messageSent senderSock m) ∧
        ∀ ev ∈ (handleSendGroupMessage st senderId senderSock d).events.dropLast,
          ∃ s, ev = Event.newMessage s m) := by
  constructor
  · intro st senderId senderSock d e hb1 hb2 he
    unfold handleSendMessage
    simp only [hb1, hb2, Bool.false_eq_true, if_false, he]
    exact ⟨_, _, rfl⟩
  · intro st senderId senderSock d g hg hus
    unfold handleSendGroupMessage
    rw [hg]
    cases hu : findUser st.users senderId with
    | none => rw [hu] at hus; simp at hus
    | some sender =>
      simp only
      refine ⟨groupMsgOf st senderId d, ?_, ?_⟩
      · rw [List.getLast?_concat]
      · rw [List.dropLast_concat]
        intro ev hev
        rcases List.mem_filterMap.mp hev with ⟨gm, _, hmap⟩
        rcases Option.map_eq_some'.mp hmap with ⟨entry, _, hentry⟩
        exact ⟨entry.socketId, hentry.symm⟩

/-- Concrete scenario for C4: no blocks, sender 1 on socket 11, receiver
2 online on socket 21 and not viewing the chat room. -/
def stC4 : ServerState :=
  { users := [⟨1, []⟩, ⟨2, []⟩]
    messages := []
    groups := []
    onlineUsers := [⟨1, 11⟩, ⟨2, 21⟩]
    socketRooms := [⟨11, []⟩, ⟨21, []⟩]
    nextId := 100
    now := 1000 }

/-- Send payload for the C4 scenario. -/
def dC4 : SendDirectData := ⟨2, some "yo", MessageType.text⟩

/-- The message created in the C4 scenario. -/
def mC4 : Message :=
  { id := 100
    sender := 1
    receiver := some 2
    group := none
    text := "yo"
    messageType := MessageType.text
    isRead := false
    isEdited := false
    editedAt := none
    deletedForSender := false
    deletedForReceiver := false
    deletedForEveryone := false
    deletedForUsers := []
    deletedAt := none
    createdAt := 1000 }

/-- C4 counterexample.  In the concrete direct send the full emission
trace is receiveMessage to the receiver's socket 21 first and only then
messageSent to the sender's socket 11: the sender's confirmation does
not precede the other recipient's event, contrary to the claim. -/
theorem c4_counterexample :
    (handleSendMessage stC4 1 11 dC4).events =
      [Event.receiveMessage 21 mC4, Event.messageSent 11 mC4] ∧
    (21 : SocketId) ≠ 11 := by
  decide

/-- C4 witness: the direct-send conjunct of the amended theorem applied
to the concrete scenario. -/
theorem c4_recipients_before_sender_confirmation_witness :
    (receiverHasBlockedSender stC4 1 2 = false ∧
     senderHasBlockedReceiver stC4 1 2 = false ∧
     findOnline stC4.onlineUsers 2 = some ⟨2, 21⟩) ∧
    (∃ m rest, (handleSendMessage stC4 1 11 dC4).events =
      Event.receiveMessage 21 m :: Event.messageSent 11 m :: rest) :=
  ⟨⟨by decide, by decide, by decide⟩,
    c4_recipients_before_sender_confirmation.1 stC4 1 11 dC4 ⟨2, 21⟩
      (by decide) (by decide) (by decide)⟩

/-- C5 (amended).  For every group send, the set of live connections
that receive the newMessage event is exactly the online active members
of the group resolved through the presence registry — the sender's own
connection included — with no exclusion for blocking relationships: the
blocked and blocking member lists are computed at send time but never
consulted by the fan-out loop. -/
theorem c5_group_fanout_ignores_blocking
    (st : ServerState) (senderId : UserId) (senderSock : SocketId) (d : SendGroupData) (g : Group)
    (hg : findGroupForMember st.groups d.groupId senderId = some g)
    (hus : (findUser st.users senderId).isSome = true) :
    ∀ s : SocketId,
      (∃ mm, Event.newMessage s mm ∈ (handleSendGroupMessage st senderId senderSock d).events) ↔
      (∃ gm ∈ g.members, ∃ e, findOnline st.onlineUsers gm.user = some e ∧ e.socketId = s) := by
  intro s
  unfold handleSendGroupMessage
  rw [hg]
  cases hu : findUser st.users senderId with
  | none => rw [hu] at hus; simp at hus
  | some sender =>
    simp only
    constructor
    · rintro ⟨mm, hmm⟩
      rcases List.mem_append.mp hmm with hin | hin
      · rcases List.mem_filterMap.mp hin with ⟨gm, hgm, hmap⟩
        rcases Option.map_eq_some'.mp hmap with ⟨e, he, heq⟩
        injection heq with h1 h2
        exact ⟨gm, hgm, e, he, h1⟩
      · simp at hin
    · rintro ⟨gm, hgm, e, he, hsock⟩
      refine ⟨groupMsgOf st senderId d,
        List.mem_append.mpr (Or.inl (List.mem_filterMap.mpr ⟨gm, hgm, ?_⟩))⟩
      rw [he]
      simp [hsock]

/-- The group of the C5 scenario: members 1 and 2, active. -/
def gC5 : Group :=
  { id := 5
    members := [⟨1, 0, 0⟩, ⟨2, 0, 0⟩]
    removedMembers := []
    leftMembers := []
    isActive := true
    latestMessage := none }

/-- Concrete scenario for C5: member 2 has blocked sender 1, both online. -/
def stC5 : ServerState :=
  { users := [⟨1, []⟩, ⟨2, [1]⟩]
    messages := []
    groups := [gC5]
    onlineUsers := [⟨1, 11⟩, ⟨2, 21⟩]
    socketRooms := [⟨11, []⟩, ⟨21, []⟩]
    nextId := 100
    now := 1000 }

/-- Group-send payload for the C5 scenario. -/
def dC5 : SendGroupData := ⟨5, some "hey", MessageType.text⟩

/-- The group message created in the C5 scenario. -/
def mC5 : Message :=
  { id := 100
    sender := 1
    receiver := none
    group := some 5
    text := "hey"
    messageType := MessageType.text
    isRead := false
    isEdited := false
    editedAt := none
    deletedForSender := false
    deletedForReceiver := false
    deletedForEveryone := false
    deletedForUsers := []
    deletedAt := none
    createdAt := 1000 }

/-- C5 counterexample.  Member 2 has blocked the sender, yet member 2's
live connection (socket 21) still receives the newMessage event: the
receiving set is not the claimed deliverable set excluding blocked
pairs. -/
theorem c5_counterexample :
    userBlocks stC5.users 2 1 = true ∧
    Event.newMessage 21 mC5 ∈ (handleSendGroupMessage stC5 1 11 dC5).events := by
  decide

/-- C5 witness: the amended theorem applied to the concrete scenario. -/
theorem c5_group_fanout_ignores_blocking_witness :
    (findGroupForMember stC5.groups 5 1 = some gC5 ∧
     (findUser stC5.users 1).isSome = true) ∧
    (∀ s : SocketId,
      (∃ mm, Event.newMessage s mm ∈ (handleSendGroupMessage stC5 1 11 dC5).events) ↔
      (∃ gm ∈ gC5.members, ∃ e, findOnline stC5.onlineUsers gm.user = some e ∧ e.socketId = s)) :=
  ⟨⟨by decide, by decide⟩,
    c5_group_fanout_ignores_blocking stC5 1 11 dC5 gC5 (by decide) (by decide)⟩

/-- Test for a structured error event among a handler's emissions. -/
def sentError (evs : List Event) : Bool :=
  evs.any (fun ev =>
    match ev with
    | Event.errorEvent _ _ => true
    | _ => false)

/-- Success test for an HTTP controller response. -/
def httpOk {α : Type} (r : Except (Nat × String) α) : Bool :=
  match r with
  | Except.ok _ => true
  | Except.error _ => false

/-- C6 (amended).  On the socket interface, edit succeeds (no error
event) exactly when the caller owns an existing message of text kind
whose age does not exceed 12 hours; on success the text is replaced by
the trimmed input, isEdited becomes true and editedAt is set to now,
with all other rows untouched; on any failure the state is unchanged.
On the HTTP interface the same holds except that a replacement text that
is empty after trimming is additionally rejected up front. -/
theorem c6_edit_succeeds_iff_owner_text_within_window :
    (∀ st userId sock d,
      sentError (handleEditMessage st userId sock d).events = false ↔
        ∃ m, findOwnMessage st.messages d.messageId userId = some m ∧
          m.messageType = MessageType.text ∧ st.now - m.createdAt ≤ twelveHoursMs) ∧
    (∀ st userId sock d m,
      findOwnMessage st.messages d.messageId userId = some m →
      m.messageType = MessageType.text →
      st.now - m.createdAt ≤ twelveHoursMs →
      ({ m with text := jsTrim d.text, isEdited := true, editedAt := some st.now } : Message) ∈
          (handleEditMessage st userId sock d).state.messages ∧
      (handleEditMessage st userId sock d).state.messages.length = st.messages.length ∧
      (∀ x ∈ st.messages, x.id ≠ m.id →
        x ∈ (handleEditMessage st userId sock d).state.messages)) ∧
    (∀ st userId sock d,
      (¬ ∃ m, findOwnMessage st.messages d.messageId userId = some m ∧
        m.messageType = MessageType.text ∧ st.now - m.createdAt ≤ twelveHoursMs) →
      (handleEditMessage st userId sock d).state = st) ∧
    (∀ st userId mid t,
      httpOk (editMessageHttp st userId mid t).2 = true ↔
        (jsTrim t).data.isEmpty = false ∧
        ∃ m, findOwnMessage st.messages mid userId = some m ∧
          m.messageType = MessageType.text ∧ st.now - m.createdAt ≤ twelveHoursMs) ∧
    (∀ st userId mid t m,
      (jsTrim t).data.isEmpty = false →
      findOwnMessage st.messages mid userId = some m →
      m.messageType = MessageType.text →
      st.now - m.createdAt ≤ twelveHoursMs →
      ({ m with text := jsTrim t, isEdited := true, editedAt := some st.now } : Message) ∈
          (editMessageHttp st userId mid t).1.messages) ∧
    (∀ st userId mid t,
      httpOk (editMessageHttp st userId mid t).2 = false →
      (editMessageHttp st userId mid t).1 = st) := by
  refine ⟨?_, ?_, ?_, ?_, ?_, ?_⟩
  · intro st userId sock d
    unfold handleEditMessage
    cases hf : findOwnMessage st.messages d.messageId userId with
    | none => simp [sentError, hf]
    | some m =>
      dsimp only
      by_cases hage : st.now - m.createdAt > twelveHoursMs
      · rw [if_pos hage]
        simp only [sentError, List.any_cons, List.any_nil]
        constructor
        · intro hfalse; simp at hfalse
        · rintro ⟨m1, hm1, _, hle⟩
          injection hm1 with hm1
          subst hm1
          exact absurd hle (Nat.not_le.mpr hage)
      · rw [if_neg hage]
        by_cases htype : m.messageType = MessageType.text
        · have ht : (m.messageType != MessageType.text) = false := by simp [htype]
          rw [ht]
          simp only [Bool.false_eq_true, if_false]
          constructor
          · intro _
            exact ⟨m, rfl, htype, Nat.le_of_not_lt hage⟩
          · intro _
            simp only [sentError, List.any_append, List.any_cons, List.any_nil]
            cases m.receiver with
            | none =>
              cases m.group with
              | none => rfl
              | some g => rfl
            | some r =>
              dsimp only
              cases findOnline st.onlineUsers r with
              | none =>
                cases m.group with
                | none => rfl
                | some g => rfl
              | some e =>
                cases m.group with
                | none => rfl
                | some g => rfl
        · have ht : (m.messageType != MessageType.text) = true := by simp [htype]
          rw [ht]
          simp only [if_true]
          simp only [sentError, List.any_cons, List.any_nil]
          constructor
          · intro hfalse; simp at hfalse
          · rintro ⟨m1, hm1, htxt, _⟩
            injection hm1 with hm1
            subst hm1
            exact absurd htxt htype
  · intro st userId sock d m hf htype hage
    have hnage : ¬ st.now - m.createdAt > twelveHoursMs := Nat.not_lt.mpr hage
    have hmem : m ∈ st.messages := List.mem_of_find?_eq_some hf
    have ht : (m.messageType != MessageType.text) = false := by simp [htype]
    unfold handleEditMessage
    rw [hf]
    dsimp only
    simp only [if_neg hnage, ht, Bool.false_eq_true, if_false]
    refine ⟨mem_updateMessage_self _ hmem rfl, length_updateMessage _ _ _, ?_⟩
    intro x hx hne
    exact mem_updateMessage_of_ne _ _ hx hne
  · intro st userId sock d hcond
    unfold handleEditMessage
    cases hf : findOwnMessage st.messages d.messageId userId with
    | none => rfl
    | some m =>
      dsimp only
      by_cases hage : st.now - m.createdAt > twelveHoursMs
      · rw [if_pos hage]
      · rw [if_neg hage]
        by_cases htype : m.messageType = MessageType.text
        · exact absurd ⟨m, hf, htype, Nat.le_of_not_lt hage⟩ hcond
        · have ht : (m.messageType != MessageType.text) = true := by simp [htype]
          rw [ht]
          rfl
  · intro st userId mid t
    unfold editMessageHttp
    by_cases hempty : (jsTrim t).data.isEmpty = true
    · rw [if_pos hempty]
      simp [httpOk, hempty]
    · have hne : (jsTrim t).data.isEmpty = false := by simpa using hempty
      rw [if_neg hempty]
      cases hf : findOwnMessage st.messages mid userId with
      | none => simp [httpOk, hf]
      | some m =>
        dsimp only
        by_cases hage : st.now - m.createdAt > twelveHoursMs
        · rw [if_pos hage]
          simp only [httpOk]
          constructor
          · intro hfalse; simp at hfalse
          · rintro ⟨_, m1, hm1, _, hle⟩
            injection hm1 with hm1
            subst hm1
            exact absurd hle (Nat.not_le.mpr hage)
        · rw [if_neg hage]
          by_cases htype : m.messageType = MessageType.text
          · have ht : (m.messageType != MessageType.text) = false := by simp [htype]
            rw [ht]
            simp only [Bool.false_eq_true, if_false, httpOk]
            constructor
            · intro _
              exact ⟨hne, m, rfl, htype, Nat.le_of_not_lt hage⟩
            · intro _; trivial
          · have ht : (m.messageType != MessageType.text) = true := by simp [htype]
            rw [ht]
            simp only [if_true, httpOk]
            constructor
            · intro hfalse; simp at hfalse
            · rintro ⟨_, m1, hm1, htxt, _⟩
              injection hm1 with hm1
              subst hm1
              exact absurd htxt htype
  · intro st userId mid t m hne hf htype hage
    have hnage : ¬ st.now - m.createdAt > twelveHoursMs := Nat.not_lt.mpr hage
    have hmem : m ∈ st.messages := List.mem_of_find?_eq_some hf
    have ht : (m.messageType != MessageType.text) = false := by simp [htype]
    have hemp : ¬ (jsTrim t).data.isEmpty = true := by simp [hne]
    unfold editMessageHttp
    rw [if_neg hemp, hf]
    dsimp only
    simp only [if_neg hnage, ht, Bool.false_eq_true, if_false]
    exact mem_updateMessage_self _ hmem rfl
  · intro st userId mid t hfail
    unfold editMessageHttp at hfail ⊢
    by_cases hempty : (jsTrim t).data.isEmpty = true
    · rw [if_pos hempty]
    · rw [if_neg hempty] at hfail ⊢
      cases hf : findOwnMessage st.messages mid userId with
      | none => rfl
      | some m =>
        rw [hf] at hfail
        dsimp only at hfail ⊢
        by_cases hage : st.now - m.createdAt > twelveHoursMs
        · rw [if_pos hage]
        · rw [if_neg hage] at hfail ⊢
          by_cases htype : m.messageType = MessageType.text
          · have ht : (m.messageType != MessageType.text) = false := by simp [htype]
            rw [ht] at hfail
            simp [httpOk] at hfail
          · have ht : (m.messageType != MessageType.text) = true := by simp [htype]
            rw [ht]
            rfl

/-- The stored message of the C6 counterexample: a text message owned by
user 1, created at the current instant. -/
def mC6 : Message :=
  { id := 100
    sender := 1
    receiver := some 2
    group := none
    text := "hello"
    messageType := MessageType.text
    isRead := false
    isEdited := false
    editedAt := none
    deletedForSender := false
    deletedForReceiver := false
    deletedForEveryone := false
    deletedForUsers := []
    deletedAt := none
    createdAt := 1000 }

/-- Concrete scenario for the C6 counterexample: the message is 0 ms old. -/
def stC6 : ServerState :=
  { users := [⟨1, []⟩, ⟨2, []⟩]
    messages := [mC6]
    groups := []
    onlineUsers := []
    socketRooms := []
    nextId := 101
    now := 1000 }

/-- C6 counterexample.  The caller is the original sender, the message
exists, its kind is text and its age is 0 — per the claim the edit must
succeed — yet the HTTP edit with a whitespace-only replacement text
fails (validation rejects it before the ownership lookup) and the state
is unchanged, refuting the claimed if-and-only-if. -/
theorem c6_counterexample :
    findOwnMessage stC6.messages 100 1 = some mC6 ∧
    mC6.messageType = MessageType.text ∧
    stC6.now - mC6.createdAt ≤ twelveHoursMs ∧
    httpOk (editMessageHttp stC6 1 100 " ").2 = false ∧
    (editMessageHttp stC6 1 100 " ").1 = stC6 := by
  decide

/-- The stored message of the C6 witness, created at time 0. -/
def mC6w : Message :=
  { id := 100
    sender := 1
    receiver := some 2
    group := none
    text := "hello"
    messageType := MessageType.text
    isRead := false
    isEdited := false
    editedAt := none
    deletedForSender := false
    deletedForReceiver := false
    deletedForEveryone := false
    deletedForUsers := []
    deletedAt := none
    createdAt := 0 }

/-- Concrete scenario for the C6 witness: the clock stands at 11 h 59 min
after the message's creation, inside the edit window. -/
def stC6w : ServerState :=
  { users := [⟨1, []⟩, ⟨2, []⟩]
    messages := [mC6w]
    groups := []
    onlineUsers := []
    socketRooms := []
    nextId := 101
    now := 43140000 }

/-- C6 witness: the socket success postcondition applied to an
11h59m-old message, which is editable per the window rule. -/
theorem c6_edit_succeeds_iff_owner_text_within_window_witness :
    (findOwnMessage stC6w.messages 100 1 = some mC6w ∧
     mC6w.messageType = MessageType.text ∧
     stC6w.now - mC6w.createdAt ≤ twelveHoursMs) ∧
    (({ mC6w with
        text := jsTrim "edited"
        isEdited := true
        editedAt := some stC6w.now } : Message) ∈
          (handleEditMessage stC6w 1 11 ⟨100, "edited"⟩).state.messages ∧
      (handleEditMessage stC6w 1 11 ⟨100, "edited"⟩).state.messages.length =
        stC6w.messages.length ∧
      (∀ x ∈ stC6w.messages, x.id ≠ mC6w.id →
        x ∈ (handleEditMessage stC6w 1 11 ⟨100, "edited"⟩).state.messages)) :=
  ⟨⟨by decide, by decide, by decide⟩,
    c6_edit_succeeds_iff_owner_text_within_window.2.1 stC6w 1 11 ⟨100, "edited"⟩ mC6w
      (by decide) (by decide) (by decide)⟩

/-- C7 (amended).  For every direct send where neither party has blocked
the other: when the receiver's registered connection is joined to the
direct-chat room keyed by the sorted pair of the two user ids, the
message is created with isRead true and the sender immediately receives
a messagesRead event for that receiver; when the receiver's connection
is not joined to that room (the room set lacks the key, the socket is
gone, or the receiver is not in the registry), the message is created
with isRead false and no messagesRead event is emitted. -/
theorem c7_passive_read_when_receiver_in_room
    (st : ServerState) (senderId : UserId) (senderSock : SocketId) (d : SendDirectData)
    (hb1 : receiverHasBlockedSender st senderId d.receiverId = false)
    (hb2 : senderHasBlockedReceiver st senderId d.receiverId = false) :
    (∀ e rooms, findOnline st.onlineUsers d.receiverId = some e →
      findRooms st.socketRooms e.socketId = some rooms →
      rooms.contains (directRoom senderId d.receiverId) = true →
      ∃ msg, (handleSendMessage st senderId senderSock d).state.messages = st.messages ++ [msg] ∧
        msg.isRead = true ∧ msg.sender = senderId ∧ msg.receiver = some d.receiverId ∧
        Event.messagesRead senderSock d.receiverId ∈
          (handleSendMessage st senderId senderSock d).events) ∧
    (∀ e rooms, findOnline st.onlineUsers d.receiverId = some e →
      findRooms st.socketRooms e.socketId = some rooms →
      rooms.contains (directRoom senderId d.receiverId) = false →
      ∃ msg, (handleSendMessage st senderId senderSock d).state.messages = st.messages ++ [msg] ∧
        msg.isRead = false ∧ msg.sender = senderId ∧ msg.receiver = some d.receiverId ∧
        Event.messagesRead senderSock d.receiverId ∉
          (handleSendMessage st senderId senderSock d).events) ∧
    (∀ e, findOnline st.onlineUsers d.receiverId = some e →
      findRooms st.socketRooms e.socketId = none →
      ∃ msg, (handleSendMessage st senderId senderSock d).state.messages = st.messages ++ [msg] ∧
        msg.isRead = false) ∧
    (findOnline st.onlineUsers d.receiverId = none →
      ∃ msg, (handleSendMessage st senderId senderSock d).state.messages = st.messages ++ [msg] ∧
        msg.isRead = false) := by
  refine ⟨?_, ?_, ?_, ?_⟩
  · intro e rooms he hr hc
    unfold handleSendMessage
    simp only [hb1, hb2, Bool.false_eq_true, if_false, he, hr, hc]
    refine ⟨_, rfl, rfl, rfl, rfl, ?_⟩
    simp
  · intro e rooms he hr hc
    unfold handleSendMessage
    simp only [hb1, hb2, Bool.false_eq_true, if_false, he, hr, hc]
    refine ⟨_, rfl, rfl, rfl, rfl, ?_⟩
    simp
  · intro e he hr
    unfold handleSendMessage
    simp only [hb1, hb2, Bool.false_eq_true, if_false, he, hr]
    exact ⟨_, rfl, rfl⟩
  · intro he
    unfold handleSendMessage
    simp only [hb1, hb2, Bool.false_eq_true, if_false, he]
    exact ⟨_, rfl, rfl⟩

/-- Concrete scenario for the C7 counterexample: user 2 has blocked user
1, yet user 2's connection (socket 21) is joined to the direct-chat room
of the pair. -/
def stC7 : ServerState :=
  { users := [⟨1, []⟩, ⟨2, [1]⟩]
    messages := []
    groups := []
    onlineUsers := [⟨1, 11⟩, ⟨2, 21⟩]
    socketRooms := [⟨11, []⟩, ⟨21, ["chat_1_2"]⟩]
    nextId := 100
    now := 1000 }

/-- Send payload for the C7 counterexample. -/
def dC7 : SendDirectData := ⟨2, some "hi", MessageType.text⟩

/-- C7 counterexample.  The receiver's connection is joined to the
direct-chat room of the sorted pair at send time, yet no message at all
is created (the receiver had blocked the sender, so the handler returns
before persisting): the claim that the message is created with
isRead=true fails at this input. -/
theorem c7_counterexample :
    (∃ e, findOnline stC7.onlineUsers 2 = some e ∧
      findRooms stC7.socketRooms e.socketId = some ["chat_1_2"] ∧
      ["chat_1_2"].contains (directRoom 1 2) = true) ∧
    (handleSendMessage stC7 1 11 dC7).state.messages = [] := by
  refine ⟨⟨⟨2, 21⟩, by decide, by decide, by decide⟩, by decide⟩

/-- Concrete scenario for the C7 witness: no blocks, receiver 2 online on
socket 21 and joined to the direct-chat room chat_1_2. -/
def stC7w : ServerState :=
  { users := [⟨1, []⟩, ⟨2, []⟩]
    messages := []
    groups := []
    onlineUsers := [⟨1, 11⟩, ⟨2, 21⟩]
    socketRooms := [⟨11, []⟩, ⟨21, ["chat_1_2"]⟩]
    nextId := 100
    now := 1000 }

/-- C7 witness: the joined-room conjunct of the amended theorem applied
to the concrete unblocked scenario. -/
theorem c7_passive_read_when_receiver_in_room_witness :
    (receiverHasBlockedSender stC7w 1 2 = false ∧
     senderHasBlockedReceiver stC7w 1 2 = false ∧
     findOnline stC7w.onlineUsers 2 = some ⟨2, 21⟩ ∧
     findRooms stC7w.socketRooms 21 = some ["chat_1_2"] ∧
     (["chat_1_2"] : List String).contains (directRoom 1 2) = true) ∧
    (∃ msg, (handleSendMessage stC7w 1 11 dC7).state.messages = stC7w.messages ++ [msg] ∧
      msg.isRead = true ∧ msg.sender = 1 ∧ msg.receiver = some 2 ∧
      Event.messagesRead 11 2 ∈ (handleSendMessage stC7w 1 11 dC7).events) :=
  ⟨⟨by decide, by decide, by decide, by decide, by decide⟩,
    (c7_passive_read_when_receiver_in_room stC7w 1 11 dC7 (by decide) (by decide)).1
      ⟨2, 21⟩ ["chat_1_2"] (by decide) (by decide) (by decide)⟩

theorem deleteForMe_direct_sender_eq
    (st : ServerState) (sock : SocketId) (mid : MsgId) (m : Message)
    (hfind : findMessage st.messages mid = some m) (hgroup : m.group = none) :
    handleDeleteMessageForMe st m.sender sock mid =
      { state := { st with messages := updateMessage st.messages m.id ({ m with deletedForSender := true, deletedAt := some st.now }) }
        events := [Event.messageDeletedForMe sock ({ m with deletedForSender := true, deletedAt := some st.now })] } := by
  unfold handleDeleteMessageForMe
  rw [hfind]
  dsimp only
  rw [hgroup]
  simp

theorem deleteForMe_direct_receiver_eq
    (st : ServerState) (sock : SocketId) (mid : MsgId) (m : Message) (rid : UserId)
    (hfind : findMessage st.messages mid = some m) (hgroup : m.group = none)
    (hrecv : m.receiver = some rid) (hner : rid ≠ m.sender) :
    handleDeleteMessageForMe st rid sock mid =
      { state := { st with messages := updateMessage st.messages m.id ({ m with deletedForReceiver := true, deletedAt := some st.now }) }
        events := [Event.messageDeletedForMe sock ({ m with deletedForReceiver := true, deletedAt := some st.now })] } := by
  have hsne : (m.sender == rid) = false := by
    simp [Ne.symm hner]
  unfold handleDeleteMessageForMe
  rw [hfind]
  dsimp only
  rw [hgroup]
  dsimp only
  rw [hrecv]
  simp [hsne]

/-- C8.  For a direct message, DeleteForMe by one party flips only that
side's flag plus deletedAt, leaving text, isRead, isEdited and the other
flag unchanged (the updated row is the explicit one-field record
update); the event is echoed only to the caller; after the sender
deletes, the receiver's conversation view still includes the message;
after both delete, it is hidden from both viewers while the row still
exists (store length unchanged). -/
theorem c8_delete_for_me_direct_asymmetric
    (st : ServerState) (sock1 sock2 : SocketId) (mid : MsgId) (m : Message) (rid : UserId)
    (hfind : findMessage st.messages mid = some m)
    (hgroup : m.group = none)
    (hrecv : m.receiver = some rid)
    (hner : rid ≠ m.sender)
    (hnotdel : m.deletedForReceiver = false) :
    (handleDeleteMessageForMe st m.sender sock1 mid).events =
      [Event.messageDeletedForMe sock1 ({ m with deletedForSender := true, deletedAt := some st.now })] ∧
    ({ m with deletedForSender := true, deletedAt := some st.now } : Message) ∈
      (handleDeleteMessageForMe st m.sender sock1 mid).state.messages ∧
    (handleDeleteMessageForMe st m.sender sock1 mid).state.messages.length =
      st.messages.length ∧
    (∀ x ∈ st.messages, x.id ≠ m.id →
      x ∈ (handleDeleteMessageForMe st m.sender sock1 mid).state.messages) ∧
    visibleInConversations
      { m with deletedForSender := true, deletedAt := some st.now } rid = true ∧
    (({ m with deletedForSender := true, deletedForReceiver := true, deletedAt := some st.now } : Message) ∈
      (handleDeleteMessageForMe
        (handleDeleteMessageForMe st m.sender sock1 mid).state rid sock2 mid).state.messages ∧
     (handleDeleteMessageForMe
        (handleDeleteMessageForMe st m.sender sock1 mid).state rid sock2 mid).state.messages.length =
      st.messages.length ∧
     visibleInConversations ({ m with deletedForSender := true, deletedForReceiver := true, deletedAt := some st.now }) m.sender = false ∧
     visibleInConversations ({ m with deletedForSender := true, deletedForReceiver := true, deletedAt := some st.now }) rid = false) := by
  have hmem : m ∈ st.messages := List.mem_of_find?_eq_some hfind
  have hmid : m.id = mid := by
    have := List.find?_some hfind
    simpa using this
  have h1 := deleteForMe_direct_sender_eq st sock1 mid m hfind hgroup
  have hfind1 : findMessage (updateMessage st.messages m.id
      { m with deletedForSender := true, deletedAt := some st.now }) mid =
      some { m with deletedForSender := true, deletedAt := some st.now } := by
    rw [hmid] at *
    exact findMessage_updateMessage st.messages mid _ (by rw [hfind]; rfl) rfl
  have h2 := deleteForMe_direct_receiver_eq
    (handleDeleteMessageForMe st m.sender sock1 mid).state sock2 mid
    { m with deletedForSender := true, deletedAt := some st.now } rid
    (by rw [h1]; exact hfind1) (by exact hgroup) (by exact hrecv) hner
  refine ⟨?_, ?_, ?_, ?_, ?_, ?_, ?_, ?_, ?_⟩
  · rw [h1]
  · rw [h1]
    exact mem_updateMessage_self _ hmem rfl
  · rw [h1]
    exact length_updateMessage _ _ _
  · intro x hx hne
    rw [h1]
    exact mem_updateMessage_of_ne _ _ hx hne
  · simp [visibleInConversations, hrecv, Ne.symm hner, hnotdel]
  · rw [h2, h1]
    dsimp only
    have hm1mem : ({ m with deletedForSender := true, deletedAt := some st.now } : Message) ∈
        updateMessage st.messages m.id { m with deletedForSender := true, deletedAt := some st.now } :=
      mem_updateMessage_self _ hmem rfl
    exact mem_updateMessage_self _ hm1mem rfl
  · rw [h2, h1]
    dsimp only
    rw [length_updateMessage, length_updateMessage]
  · simp [visibleInConversations]
  · simp [visibleInConversations, hrecv]

/-- The direct message of the C8 witness scenario. -/
def mC8 : Message :=
  { id := 100
    sender := 1
    receiver := some 2
    group := none
    text := "m"
    messageType := MessageType.text
    isRead := true
    isEdited := false
    editedAt := none
    deletedForSender := false
    deletedForReceiver := false
    deletedForEveryone := false
    deletedForUsers := []
    deletedAt := none
    createdAt := 500 }

/-- Concrete scenario for the C8 witness. -/
def stC8 : ServerState :=
  { users := [⟨1, []⟩, ⟨2, []⟩]
    messages := [mC8]
    groups := []
    onlineUsers := []
    socketRooms := []
    nextId := 101
    now := 1000 }

/-- C8 witness: the theorem applied to the concrete direct message, with
the sender deleting on socket 11 and then the receiver on socket 21. -/
theorem c8_delete_for_me_direct_asymmetric_witness :
    (findMessage stC8.messages 100 = some mC8 ∧ mC8.group = none ∧
     mC8.receiver = some 2 ∧ (2 : UserId) ≠ mC8.sender ∧ mC8.deletedForReceiver = false) ∧
    ((handleDeleteMessageForMe stC8 mC8.sender 11 100).events =
      [Event.messageDeletedForMe 11 ({ mC8 with deletedForSender := true, deletedAt := some stC8.now })] ∧
    ({ mC8 with deletedForSender := true, deletedAt := some stC8.now } : Message) ∈
      (handleDeleteMessageForMe stC8 mC8.sender 11 100).state.messages ∧
    (handleDeleteMessageForMe stC8 mC8.sender 11 100).state.messages.length =
      stC8.messages.length ∧
    (∀ x ∈ stC8.messages, x.id ≠ mC8.id →
      x ∈ (handleDeleteMessageForMe stC8 mC8.sender 11 100).state.messages) ∧
    visibleInConversations
      { mC8 with deletedForSender := true, deletedAt := some stC8.now } 2 = true ∧
    (({ mC8 with deletedForSender := true, deletedForReceiver := true, deletedAt := some stC8.now } : Message) ∈
      (handleDeleteMessageForMe
        (handleDeleteMessageForMe stC8 mC8.sender 11 100).state 2 21 100).state.messages ∧
     (handleDeleteMessageForMe
        (handleDeleteMessageForMe stC8 mC8.sender 11 100).state 2 21 100).state.messages.length =
      stC8.messages.length ∧
     visibleInConversations ({ mC8 with deletedForSender := true, deletedForReceiver := true, deletedAt := some stC8.now }) mC8.sender = false ∧
     visibleInConversations ({ mC8 with deletedForSender := true, deletedForReceiver := true, deletedAt := some stC8.now }) 2 = false)) :=
  ⟨⟨by decide, by decide, by decide, by decide, by decide⟩,
    c8_delete_for_me_direct_asymmetric stC8 11 21 100 mC8 2
      (by decide) (by decide) (by decide) (by decide) (by decide)⟩

/-- C10.  For every disconnect of a connection authenticated as user uid,
the presence-registry entry keyed by uid is deleted and userOffline is
pushed to every other online user eligible under the block filter — even
when the registry currently records a different (newer) socket id for
uid, so a user holding a live newer connection is reported offline when
a stale old connection disconnects: the handler never compares the
stored socket id with the disconnecting one. -/
theorem c10_disconnect_unconditionally_reports_offline
    (st : ServerState) (uid : UserId) (sock : SocketId) (u : User) (entry : OnlineEntry)
    (hu : findUser st.users uid = some u)
    (hentry : findOnline st.onlineUsers uid = some entry)
    (hstale : entry.socketId ≠ sock) :
    findOnline (handleDisconnect st uid sock).state.onlineUsers uid = none ∧
    (∀ e ∈ (handleDisconnect st uid sock).state.onlineUsers,
      ∀ other, findUser st.users e.userId = some other →
        other.blockedUsers.contains uid = false →
        u.blockedUsers.contains e.userId = false →
        (findRooms (handleDisconnect st uid sock).state.socketRooms e.socketId).isSome = true →
        Event.userOffline e.socketId uid ∈ (handleDisconnect st uid sock).events) := by
  constructor
  · unfold handleDisconnect findOnline
    dsimp only
    rw [List.find?_eq_none]
    intro x hx
    have hxne := (List.mem_filter.mp hx).2
    simpa using hxne
  · intro e he other hother hb1 hb2 hrooms
    unfold handleDisconnect at he hrooms ⊢
    dsimp only at he hrooms ⊢
    unfold notifyStatus
    dsimp only
    rw [hu]
    refine List.mem_filterMap.mpr ⟨e, he, ?_⟩
    have hne : (e.userId == uid) = false := by
      have hxne := (List.mem_filter.mp he).2
      simpa using hxne
    simp only [hne, Bool.false_eq_true, if_false, hother, hb1, hb2, Bool.or_self, hrooms,
      if_true]

/-- Concrete scenario for the C10 witness: user 1 connects on socket 11,
then reconnects on socket 12 (the registry write replaces the entry);
user 2 is online on socket 21; both sockets 12 and 21 are live. -/
def stC10 : ServerState :=
  { users := [⟨1, []⟩, ⟨2, []⟩]
    messages := []
    groups := []
    onlineUsers := registerOnline (registerOnline (registerOnline [] 1 11) 2 21) 1 12
    socketRooms := [⟨12, []⟩, ⟨21, []⟩]
    nextId := 0
    now := 0 }

/-- C10 witness: the stale socket 11 disconnects while the registry holds
the newer socket 12 for user 1; the registry entry is deleted anyway and
user 2 receives userOffline for user 1. -/
theorem c10_disconnect_unconditionally_reports_offline_witness :
    (findUser stC10.users 1 = some ⟨1, []⟩ ∧
     findOnline stC10.onlineUsers 1 = some ⟨1, 12⟩ ∧
     (12 : SocketId) ≠ 11) ∧
    (findOnline (handleDisconnect stC10 1 11).state.onlineUsers 1 = none ∧
     (∀ e ∈ (handleDisconnect stC10 1 11).state.onlineUsers,
       ∀ other, findUser stC10.users e.userId = some other →
         other.blockedUsers.contains 1 = false →
         List.contains [] e.userId = false →
         (findRooms (handleDisconnect stC10 1 11).state.socketRooms e.socketId).isSome = true →
         Event.userOffline e.socketId 1 ∈ (handleDisconnect stC10 1 11).events)) ∧
    Event.userOffline 21 1 ∈ (handleDisconnect stC10 1 11).events :=
  ⟨⟨by decide, by decide, by decide⟩,
    c10_disconnect_unconditionally_reports_offline stC10 1 11 ⟨1, []⟩ ⟨1, 12⟩
      (by decide) (by decide) (by decide),
    by decide⟩

end ConvoX
